import Mathlib

/-!
Verification of the reputation ledger and vote reconciliation engine of
`reputation_bot.py` (a Discord reputation bot).

The Python state lives in insertion-ordered dictionaries; we embed those as
association lists (`List (key × value)`) with `dget`/`dset`/`ddel` mirroring
Python `dict.get`, `d[k] = v` (update in place, else append) and `del d[k]`.
Counters are Python `int`s, embedded as `Int` (the source decrements without
clamping in the vote-switch path, so values below zero must be expressible).
User keys are `str(user_id)` in the source; since `str` is injective on ints
we key by the numeric id directly.  The Python strings `"good"`/`"bad"` used
as dict keys for the two counters / voter lists become the two-valued
`VoteType`, with `count`/`voters` playing the role of `data[vote_type]` and
`data[f"{vote_type}voters"]`.
-/

/-- Python `dict.get k`: first (and, for dicts, only) binding of `k`. -/
def dget {α β : Type} [DecidableEq α] : List (α × β) → α → Option β
  | [], _ => none
  | (k, v) :: rest, k0 => if k = k0 then some v else dget rest k0

/-- Python `d[k] = v`: overwrite in place when the key is present (keeping its
position in insertion order), otherwise append at the end. -/
def dset {α β : Type} [DecidableEq α] : List (α × β) → α → β → List (α × β)
  | [], k0, v0 => [(k0, v0)]
  | (k, v) :: rest, k0, v0 =>
      if k = k0 then (k0, v0) :: rest else (k, v) :: dset rest k0 v0

/-- Python `del d[k]` (on key-unique association lists). -/
def ddel {α β : Type} [DecidableEq α] (m : List (α × β)) (k0 : α) : List (α × β) :=
  m.filter (fun p => decide (p.1 ≠ k0))

theorem dget_dset_self {α β : Type} [DecidableEq α] (m : List (α × β)) (k : α) (v : β) :
    dget (dset m k v) k = some v := by
  induction m with
  | nil => simp [dget, dset]
  | cons p rest ih =>
      obtain ⟨k1, v1⟩ := p
      by_cases h : k1 = k
      · simp [dget, dset, h]
      · simp [dget, dset, h, ih]

theorem dget_dset_ne {α β : Type} [DecidableEq α] (m : List (α × β)) (k : α) (v : β)
    (k1 : α) (h : k1 ≠ k) : dget (dset m k v) k1 = dget m k1 := by
  have hk : ¬k = k1 := fun hh => h hh.symm
  induction m with
  | nil => simp [dget, dset, hk]
  | cons p rest ih =>
      obtain ⟨k2, v2⟩ := p
      by_cases h2 : k2 = k
      · subst h2
        simp [dget, dset, hk]
      · simp only [dset, if_neg h2]
        by_cases h3 : k2 = k1
        · simp [dget, h3]
        · simp [dget, h3, ih]

theorem dget_dset_cases {α β : Type} [DecidableEq α] (m : List (α × β)) (k : α) (v : β)
    (k1 : α) (w : β) (h : dget (dset m k v) k1 = some w) :
    w = v ∨ dget m k1 = some w := by
  by_cases hk : k1 = k
  · subst hk
    rw [dget_dset_self] at h
    exact Or.inl (Option.some.inj h).symm
  · rw [dget_dset_ne m k v k1 hk] at h
    exact Or.inr h

theorem dget_ddel_self {α β : Type} [DecidableEq α] (m : List (α × β)) (k : α) :
    dget (ddel m k) k = none := by
  induction m with
  | nil => simp [ddel, dget]
  | cons p rest ih =>
      obtain ⟨k1, v1⟩ := p
      by_cases h : k1 = k
      · simpa [ddel, dget, h] using ih
      · simpa [ddel, dget, h] using ih

theorem dget_map_value {α β γ : Type} [DecidableEq α] (m : List (α × β)) (f : β → γ)
    (k : α) : dget (m.map (fun p => (p.1, f p.2))) k = (dget m k).map f := by
  induction m with
  | nil => simp [dget]
  | cons p rest ih =>
      obtain ⟨k1, v1⟩ := p
      by_cases h : k1 = k
      · simp [dget, h]
      · simp [dget, h, ih]

/-! ## Data model -/

/-- The two vote kinds; the source uses the strings `"good"` and `"bad"`. -/
inductive VoteType : Type where
  | good
  | bad
deriving DecidableEq, Repr

/-- The other stance (used to state mutual-exclusion facts). -/
def VoteType.other : VoteType → VoteType
  | .good => .bad
  | .bad => .good

/-- One entry of `bot.reputation[author]["tokens"]`: per-token aggregate. -/
structure TokenData : Type where
  good : Int
  bad : Int
  goodvoters : List Nat
  badvoters : List Nat
  symbol : String
deriving DecidableEq, Repr

/-- Mirrors `token_data[vote_type]`. -/
def TokenData.count (td : TokenData) : VoteType → Int
  | .good => td.good
  | .bad => td.bad

/-- Mirrors the `token_data` voter-list access keyed by vote type. -/
def TokenData.voters (td : TokenData) : VoteType → List Nat
  | .good => td.goodvoters
  | .bad => td.badvoters

def TokenData.setCount (td : TokenData) : VoteType → Int → TokenData
  | .good, n => { td with good := n }
  | .bad, n => { td with bad := n }

def TokenData.setVoters (td : TokenData) : VoteType → List Nat → TokenData
  | .good, l => { td with goodvoters := l }
  | .bad, l => { td with badvoters := l }

/-- One entry of `bot.reputation`: per-user aggregate. -/
structure UserData : Type where
  good : Int
  bad : Int
  tokens : List (String × TokenData)
deriving DecidableEq, Repr

def UserData.count (u : UserData) : VoteType → Int
  | .good => u.good
  | .bad => u.bad

def UserData.setCount (u : UserData) : VoteType → Int → UserData
  | .good, n => { u with good := n }
  | .bad, n => { u with bad := n }

/-- One entry of `bot.reputation_log` / `bot.current_votes`. -/
structure VoteData : Type where
  vote_id : String
  voter_id : Nat
  author_id : Nat
  token_address : String
  vote_type : VoteType
  message_id : Nat
  timestamp : String
  reversed : Bool
deriving DecidableEq, Repr

/-- One entry of `bot.token_messages`. -/
structure MessageInfo : Type where
  author : Nat
  token_address : String
  token_symbol : String
deriving DecidableEq, Repr

/-- The bot's mutable ledger state (the parts the reputation engine touches). -/
structure BotState : Type where
  reputation : List (Nat × UserData)
  reputation_log : List (String × VoteData)
  current_votes : List (String × VoteData)
  disabled_voters : List Nat
  token_messages : List (Nat × MessageInfo)
deriving DecidableEq, Repr

/-- The state before any event: all maps empty. -/
def emptyState : BotState := ⟨[], [], [], [], []⟩

/-! ## `on_reaction_add` (lines 499-621) -/

/-- One iteration of the `for vote_type in ["good", "bad"]` loop at lines
572-577: if the voter currently appears in that stance's voter list, remove
the first occurrence (`list.remove`) and decrement the token counter and the
user counter, unclamped, setting `existing_votes`. -/
def stanceRemove (voter : Nat) (vt : VoteType) (acc : TokenData × UserData × Bool) :
    TokenData × UserData × Bool :=
  let td := acc.1
  let u := acc.2.1
  let ex := acc.2.2
  if voter ∈ td.voters vt then
    ((td.setVoters vt ((td.voters vt).erase voter)).setCount vt (td.count vt - 1),
     u.setCount vt (u.count vt - 1), true)
  else (td, u, ex)

/-- The loop at lines 570-577, unrolled over `["good", "bad"]`. -/
def removeExistingVotes (td : TokenData) (u : UserData) (voter : Nat) :
    TokenData × UserData × Bool :=
  stanceRemove voter .bad (stanceRemove voter .good (td, u, false))

/-- The ledger mutation of `on_reaction_add` (lines 540-597), after the
disabled-voter / untracked-message / self-vote / emoji checks have passed.
The fresh vote id and timestamp (`uuid.uuid4()`, `datetime.now()`) are passed
in as parameters.  Note that lines 561-566 first conditionally and then
unconditionally overwrite the token symbol, so the net effect is an
unconditional overwrite with the latest extracted symbol.  Returns the new
state together with the `existing_votes` flag ("Switched" vs "Added"). -/
def applyVoteCore (s : BotState) (author : Nat) (tokenAddr tokenSym : String)
    (voter : Nat) (newVote : VoteType) (msgId : Nat) (voteId ts : String) :
    BotState × Bool :=
  let u0 := (dget s.reputation author).getD ⟨0, 0, []⟩
  let td0 : TokenData :=
    match dget u0.tokens tokenAddr with
    | none => ⟨0, 0, [], [], tokenSym⟩
    | some td => { td with symbol := tokenSym }
  let r := removeExistingVotes td0 u0 voter
  let td1 := r.1
  let u1 := r.2.1
  let existing := r.2.2
  let td2 := (td1.setVoters newVote (td1.voters newVote ++ [voter])).setCount
    newVote (td1.count newVote + 1)
  let u2 := u1.setCount newVote (u1.count newVote + 1)
  let u3 := { u2 with tokens := dset u2.tokens tokenAddr td2 }
  let rcd : VoteData := ⟨voteId, voter, author, tokenAddr, newVote, msgId, ts, false⟩
  ({ s with
      reputation := dset s.reputation author u3,
      reputation_log := dset s.reputation_log voteId rcd,
      current_votes := dset s.current_votes voteId rcd }, existing)

/-- Observable outcome of an add-reaction event, one constructor per early
return of `on_reaction_add`.  `selfVoteRejected` is the branch at lines
513-534: the bot removes the author's own reaction (compensating action) and
tries to notify them; the ledger is not touched.  `applied b` reaches the
ledger mutation, with `b` the `existing_votes` ("Switched") flag. -/
inductive AddOutcome : Type where
  | ignoredBotOrDisabled
  | ignoredUntracked
  | selfVoteRejected
  | ignoredGlyph
  | applied (switched : Bool)
deriving DecidableEq, Repr

/-- The full `on_reaction_add` handler (lines 499-621): check order is
bot-or-disabled (502), untracked message (506-510), self-vote (513-534), and
only then the emoji check (537), followed by the ledger mutation. -/
def onReactionAdd (s : BotState) (msgId : Nat) (emoji : String) (userId : Nat)
    (userIsBot : Bool) (voteId ts : String) : BotState × AddOutcome :=
  if userIsBot || userId ∈ s.disabled_voters then (s, .ignoredBotOrDisabled)
  else
    match dget s.token_messages msgId with
    | none => (s, .ignoredUntracked)
    | some info =>
        if userId = info.author then (s, .selfVoteRejected)
        else if emoji ≠ "🟢" && emoji ≠ "🔴" then (s, .ignoredGlyph)
        else
          let newVote : VoteType := if emoji = "🟢" then .good else .bad
          let r := applyVoteCore s info.author info.token_address
            info.token_symbol userId newVote msgId voteId ts
          (r.1, .applied r.2)

/-! ## `on_raw_reaction_remove` (lines 623-702) -/

/-- The matching condition of the log-reconciliation loop at lines 671-677:
same voter, author, token address, vote type and source message, and not yet
reversed. -/
def voteMatches (v : VoteData) (voter author : Nat) (addr : String) (vt : VoteType)
    (msgId : Nat) : Bool :=
  v.voter_id == voter && v.author_id == author && v.token_address == addr &&
    v.vote_type == vt && v.message_id == msgId && !v.reversed

/-- The ledger mutation of `on_raw_reaction_remove` (lines 649-681), after the
guild / disabled-voter / bot / untracked-message / self / emoji checks.  If
the voter holds the removed stance: drop them from the voter list, decrement
the token and user counters clamped at zero (`max(0, ...)`), and then walk
the whole vote log, marking every matching active entry reversed and deleting
it from `current_votes` (the loop at lines 671-681 has no `break`). -/
def removeVoteCore (s : BotState) (author : Nat) (tokenAddr : String) (voter : Nat)
    (vt : VoteType) (msgId : Nat) : BotState :=
  match dget s.reputation author with
  | none => s
  | some u =>
      match dget u.tokens tokenAddr with
      | none => s
      | some td =>
          if voter ∈ td.voters vt then
            let td1 := (td.setVoters vt ((td.voters vt).erase voter)).setCount vt
              (max 0 (td.count vt - 1))
            let u1 := u.setCount vt (max 0 (u.count vt - 1))
            let u2 := { u1 with tokens := dset u1.tokens tokenAddr td1 }
            let matched := (s.reputation_log.filter
              (fun p => voteMatches p.2 voter author tokenAddr vt msgId)).map Prod.fst
            { s with
                reputation := dset s.reputation author u2,
                reputation_log := s.reputation_log.map (fun p =>
                  if voteMatches p.2 voter author tokenAddr vt msgId
                  then (p.1, { p.2 with reversed := true }) else p),
                current_votes := s.current_votes.filter
                  (fun p => !(matched.contains p.1)) }
          else s

/-- The full `on_raw_reaction_remove` handler (lines 623-702), with the guild
and member lookups abstracted into the `userIsBot` flag (a missing guild or
member means the event never reaches the state mutation). -/
def onRawReactionRemove (s : BotState) (msgId : Nat) (emojiName : String)
    (userId : Nat) (userIsBot : Bool) : BotState :=
  if userId ∈ s.disabled_voters then s
  else if userIsBot then s
  else
    match dget s.token_messages msgId with
    | none => s
    | some info =>
        if userId = info.author then s
        else if emojiName ≠ "🟢" && emojiName ≠ "🔴" then s
        else removeVoteCore s info.author info.token_address userId
          (if emojiName = "🟢" then .good else .bad) msgId

/-! ## `repremove` (lines 397-449) -/

/-- The `results` dict of `repremove`: ids partitioned into `success`
(removed), `invalid` (unknown id) and `reversed` (already reversed). -/
structure RemoveResults : Type where
  success : List String
  invalid : List String
  reversed : List String
deriving DecidableEq, Repr

/-- One iteration of the `for vid in raw_ids` loop of `repremove` (lines
409-436): resolve the id in the full log; unknown ids go to `invalid`,
already-reversed ones to `reversed`; otherwise decrement the author's user
counter (clamped at zero) if the author has a reputation entry, and for
token-bound votes also decrement the token counter (clamped) and drop the
voter from the stance's voter list if present; finally mark the record
reversed, delete it from `current_votes` and report it in `success`. -/
def repremoveOne (acc : BotState × RemoveResults) (vid : String) :
    BotState × RemoveResults :=
  let s := acc.1
  let res := acc.2
  match dget s.reputation_log vid with
  | none => (s, { res with invalid := res.invalid ++ [vid] })
  | some vote =>
      if vote.reversed then (s, { res with reversed := res.reversed ++ [vid] })
      else
        let s1 :=
          match dget s.reputation vote.author_id with
          | none => s
          | some u =>
              let u1 := u.setCount vote.vote_type (max 0 (u.count vote.vote_type - 1))
              let u2 :=
                if vote.token_address ≠ "admin_added" then
                  match dget u1.tokens vote.token_address with
                  | none => u1
                  | some td =>
                      let td1 := td.setCount vote.vote_type
                        (max 0 (td.count vote.vote_type - 1))
                      let td2 :=
                        if vote.voter_id ∈ td1.voters vote.vote_type then
                          td1.setVoters vote.vote_type
                            ((td1.voters vote.vote_type).erase vote.voter_id)
                        else td1
                      { u1 with tokens := dset u1.tokens vote.token_address td2 }
                else u1
              { s with reputation := dset s.reputation vote.author_id u2 }
        ({ s1 with
            reputation_log := dset s1.reputation_log vid { vote with reversed := true },
            current_votes := ddel s1.current_votes vid },
         { res with success := res.success ++ [vid] })

/-- The admin `repremove` command body (lines 405-436) on an already-parsed
list of vote ids. -/
def repremove (s : BotState) (vids : List String) : BotState × RemoveResults :=
  vids.foldl repremoveOne (s, ⟨[], [], []⟩)

/-! ## Persistence: `save_data` (186-201) and `load_data` (203-230)

`save_data` serializes each store as JSON; on the maps modelled here (string
or int keys, int / string / bool / list-of-int values) the JSON encoding is
injective and faithfully decoded by `load_data`, so the snapshot is embedded
as structured data.  The one asymmetry is the legacy-symbol backfill: a
persisted token entry may LACK the `"symbol"` key (files written by older
versions), which we model with an `Option String` field in the persisted
form; `load_data` (lines 219-224) backfills it. -/

/-- Persisted form of a `TokenData`; `symbol` may be absent in legacy files. -/
structure PTokenData : Type where
  good : Int
  bad : Int
  goodvoters : List Nat
  badvoters : List Nat
  symbol : Option String
deriving DecidableEq, Repr

structure PUserData : Type where
  good : Int
  bad : Int
  tokens : List (String × PTokenData)
deriving DecidableEq, Repr

/-- The three persisted stores named by the round-trip claim:
`reputation.json`, `reputation_log.json` and `current_votes.json`. -/
structure PersistState : Type where
  reputation : List (Nat × PUserData)
  reputation_log : List (String × VoteData)
  current_votes : List (String × VoteData)
deriving DecidableEq, Repr

def saveTokenData (td : TokenData) : PTokenData :=
  ⟨td.good, td.bad, td.goodvoters, td.badvoters, some td.symbol⟩

def saveUserData (u : UserData) : PUserData :=
  ⟨u.good, u.bad, u.tokens.map (fun p => (p.1, saveTokenData p.2))⟩

/-- Source `save_data` (lines 186-201) restricted to the three stores above. -/
def save_data (s : BotState) : PersistState :=
  ⟨s.reputation.map (fun p => (p.1, saveUserData p.2)),
   s.reputation_log, s.current_votes⟩

/-- The backfill of lines 220-224: a token entry loaded without a `"symbol"`
key gets `token_address[:6] + "..."`, or `"unknown"` for the `"unknown"`
sentinel address. -/
def loadTokenData (addr : String) (p : PTokenData) : TokenData :=
  ⟨p.good, p.bad, p.goodvoters, p.badvoters,
   match p.symbol with
   | some sym => sym
   | none => if addr ≠ "unknown" then addr.take 6 ++ "..." else "unknown"⟩

def loadUserData (p : PUserData) : UserData :=
  ⟨p.good, p.bad, p.tokens.map (fun q => (q.1, loadTokenData q.1 q.2))⟩

/-- Source `load_data` (lines 203-230) restricted to the three stores above; the
remaining fields of the running state are kept from `s`. -/
def load_data (p : PersistState) (s : BotState) : BotState :=
  { s with
      reputation := p.reputation.map (fun q => (q.1, loadUserData q.2)),
      reputation_log := p.reputation_log,
      current_votes := p.current_votes }

/-! ## `extract_token_symbol` (lines 67-100)

The four regular expressions all have the shape
`literal-head ([A-Za-z0-9 ]{2,20}) literal-tail`, searched with `re.search`
(leftmost match position, greedy repetition with backtracking into the
literal tail).  We embed that search directly: scan positions left to right,
and at each position try capture lengths from 20 downward. -/

/-- The capture character class `[A-Za-z0-9 ]`. -/
def isSymChar (c : Char) : Bool :=
  ('A' ≤ c && c ≤ 'Z') || ('a' ≤ c && c ≤ 'z') || ('0' ≤ c && c ≤ '9') || c = ' '

/-- Greedy `{lo,..}` repetition of `isSymChar` followed by the literal `tail`,
anchored at the start of `s`; tries length `k` first, then shorter ones, and
returns the captured group.  Starting at `k = 20` this is exactly Python's
greedy matching with backtracking of `[A-Za-z0-9 ]{lo,20}tail`. -/
def greedyCapture (lo : Nat) (tail : List Char) (s : List Char) :
    Nat → Option (List Char)
  | 0 => none
  | k + 1 =>
      if lo ≤ k + 1 && (s.take (k + 1)).length = k + 1 &&
          (s.take (k + 1)).all isSymChar && tail.isPrefixOf (s.drop (k + 1))
      then some (s.take (k + 1))
      else greedyCapture lo tail s k

/-- Try the pattern `head([A-Za-z0-9 ]{2,20})tail` anchored at the start of
`s`. -/
def matchHere (head tail : List Char) (s : List Char) : Option (List Char) :=
  if head.isPrefixOf s then greedyCapture 2 tail (s.drop head.length) 20
  else none

/-- Mirrors `re.search`: leftmost position at which the pattern matches. -/
def searchPat (head tail : List Char) : List Char → Option (List Char)
  | [] => matchHere head tail []
  | c :: rest =>
      match matchHere head tail (c :: rest) with
      | some g => some g
      | none => searchPat head tail rest

/-- Python's `\s` (the whitespace class, `re.UNICODE` default). -/
def isPySpace (c : Char) : Bool :=
  c = ' ' || c = '\t' || c = '\n' || c = '\r' || c.toNat = 11 || c.toNat = 12 ||
    c.toNat = 0x1c || c.toNat = 0x1d || c.toNat = 0x1e || c.toNat = 0x1f ||
    c.toNat = 0x85 || c.toNat = 0xa0 || c.toNat = 0x1680 ||
    (0x2000 ≤ c.toNat && c.toNat ≤ 0x200a) || c.toNat = 0x2028 ||
    c.toNat = 0x2029 || c.toNat = 0x202f || c.toNat = 0x205f || c.toNat = 0x3000

/-- Mirrors `str.strip()` (both ends, whitespace). -/
def stripWs (s : List Char) : List Char :=
  ((s.dropWhile isPySpace).reverse.dropWhile isPySpace).reverse

/-- The separator class of the fallback split `[\s\-–—]+`. -/
def isSepChar (c : Char) : Bool :=
  isPySpace c || c = '-' || c = '–' || c = '—'

/-- Mirrors the fallback split on separator runs as a two-mode scanner: `inPart = true`
accumulates the current part in `acc` (reversed); a separator ends the part
and switches to skipping mode (`inPart = false`), which swallows the rest of
the separator run before starting the next part.  Leading and trailing
separator runs produce empty parts, as `re.split` does. -/
def pySplit (sep : Char → Bool) : List Char → Bool → List Char → List (List Char)
  | [], true, acc => [acc.reverse]
  | [], false, _ => [[]]
  | c :: rest, true, acc =>
      if sep c then acc.reverse :: pySplit sep rest false []
      else pySplit sep rest true (c :: acc)
  | c :: rest, false, _ =>
      if sep c then pySplit sep rest false [] else pySplit sep rest true [c]

/-- The trailing/leading punctuation stripped by `.strip('.,:;!?*$')`. -/
def isPunct (c : Char) : Bool :=
  c = '.' || c = ',' || c = ':' || c = ';' || c = '!' || c = '?' || c = '*' || c = '$'

def stripPunct (s : List Char) : List Char :=
  ((s.dropWhile isPunct).reverse.dropWhile isPunct).reverse

def upper (s : List Char) : List Char := s.map Char.toUpper

/-- The fallback branch (lines 92-100): strip leading whitespace and astral
(pictographic) characters, split on whitespace / dashes, take the first part,
strip surrounding punctuation, truncate to 20 characters and uppercase. -/
def fallbackSymbol (text : List Char) : List Char :=
  let clean := text.dropWhile (fun c => isPySpace c || 0x10000 ≤ c.toNat)
  match pySplit isSepChar clean true [] with
  | [] => []
  | p :: _ =>
      let sym := stripPunct p
      if sym.isEmpty then [] else upper (sym.take 20)

/-- Source `extract_token_symbol` (lines 67-100): ordered attempts at the bold
dollar pattern `\*\*\$([A-Za-z0-9 ]{2,20})\*\*` (group stripped), the bare
dollar pattern `\$([A-Za-z0-9 ]{2,20})` (group NOT stripped), the markdown
link pattern `\[([A-Za-z0-9 ]{2,20})\]\(`, the parenthesized pattern
`\(([A-Za-z0-9 ]{2,20})\)`, then the free-text fallback. -/
def extract_token_symbol (text : String) : String :=
  if text.isEmpty then "" else
  let t := text.data
  match searchPat ['*', '*', '$'] ['*', '*'] t with
  | some g => ⟨upper (stripWs g)⟩
  | none =>
      match searchPat ['$'] [] t with
      | some g => ⟨upper g⟩
      | none =>
          match searchPat ['['] [']', '('] t with
          | some g => ⟨upper (stripWs g)⟩
          | none =>
              match searchPat ['('] [')'] t with
              | some g => ⟨upper (stripWs g)⟩
              | none => ⟨fallbackSymbol t⟩

/-! ## Getter/setter lemmas -/

theorem TokenData.voters_setVoters (td : TokenData) (vt vt1 : VoteType) (l : List Nat) :
    (td.setVoters vt l).voters vt1 = if vt1 = vt then l else td.voters vt1 := by
  cases vt <;> cases vt1 <;> simp [setVoters, voters]

theorem TokenData.voters_setCount (td : TokenData) (vt vt1 : VoteType) (n : Int) :
    (td.setCount vt n).voters vt1 = td.voters vt1 := by
  cases vt <;> cases vt1 <;> simp [setCount, voters]

theorem TokenData.count_setCount (td : TokenData) (vt vt1 : VoteType) (n : Int) :
    (td.setCount vt n).count vt1 = if vt1 = vt then n else td.count vt1 := by
  cases vt <;> cases vt1 <;> simp [setCount, count]

theorem TokenData.count_setVoters (td : TokenData) (vt vt1 : VoteType) (l : List Nat) :
    (td.setVoters vt l).count vt1 = td.count vt1 := by
  cases vt <;> cases vt1 <;> simp [setVoters, count]

theorem UserData.count_of_setCount (u : UserData) (vt vt1 : VoteType) (n : Int) :
    (u.setCount vt n).count vt1 = if vt1 = vt then n else u.count vt1 := by
  cases vt <;> cases vt1 <;> simp [setCount, count]

theorem UserData.tokens_setCount (u : UserData) (vt : VoteType) (n : Int) :
    (u.setCount vt n).tokens = u.tokens := by
  cases vt <;> simp [setCount]

/-! ## The mutual-exclusion invariant and reachability -/

/-- The per-token invariant: each voter list is duplicate-free, and no voter
holds both stances.  (Duplicate-freedom is needed to make the mutual
exclusion inductive: `list.remove` drops only the first occurrence.) -/
def TokenInv (td : TokenData) : Prop :=
  td.goodvoters.Nodup ∧ td.badvoters.Nodup ∧
    ∀ v : Nat, v ∈ td.goodvoters → v ∉ td.badvoters

instance (td : TokenData) : Decidable (TokenInv td) := by
  unfold TokenInv
  have : Decidable (∀ v : Nat, v ∈ td.goodvoters → v ∉ td.badvoters) :=
    List.decidableBAll _ td.goodvoters
  exact instDecidableAnd

/-- The invariant over the whole state: every token aggregate of every user
aggregate satisfies `TokenInv`. -/
def StateInv (s : BotState) : Prop :=
  ∀ (a : Nat) (u : UserData), dget s.reputation a = some u →
    ∀ (addr : String) (td : TokenData), dget u.tokens addr = some td → TokenInv td

/-- The states the engine can reach: the empty state, closed under the vote
application of `on_reaction_add`, the removal reconciliation of
`on_raw_reaction_remove`, and the admin removal `repremove`. -/
inductive Reachable : BotState → Prop where
  | init : Reachable emptyState
  | add (s : BotState) (author : Nat) (tokenAddr tokenSym : String) (voter : Nat)
      (newVote : VoteType) (msgId : Nat) (voteId ts : String) (h : Reachable s) :
      Reachable (applyVoteCore s author tokenAddr tokenSym voter newVote msgId voteId ts).1
  | remove (s : BotState) (author : Nat) (tokenAddr : String) (voter : Nat)
      (vt : VoteType) (msgId : Nat) (h : Reachable s) :
      Reachable (removeVoteCore s author tokenAddr voter vt msgId)
  | adminRemove (s : BotState) (vids : List String) (h : Reachable s) :
      Reachable (repremove s vids).1

theorem tokenInv_other_voters (td : TokenData) (h : TokenInv td) (v : Nat) (vt : VoteType) :
    v ∈ td.voters vt → v ∉ td.voters vt.other := by
  obtain ⟨hg, hb, hx⟩ := h
  cases vt with
  | good => exact fun hv => hx v hv
  | bad =>
      intro hv hv2
      exact hx v hv2 hv

theorem tokenInv_nodup_voters (td : TokenData) (h : TokenInv td) (vt : VoteType) :
    (td.voters vt).Nodup := by
  obtain ⟨hg, hb, _⟩ := h
  cases vt <;> assumption

/-- Erasing a voter from one stance's list preserves the invariant. -/
theorem tokenInv_erase (td : TokenData) (h : TokenInv td) (vt : VoteType) (v : Nat)
    (n : Int) :
    TokenInv ((td.setVoters vt ((td.voters vt).erase v)).setCount vt n) := by
  obtain ⟨hg, hb, hx⟩ := h
  cases vt with
  | good =>
      refine ⟨hg.erase v, hb, fun w hw => ?_⟩
      simp only [TokenData.setCount, TokenData.setVoters, TokenData.voters] at hw ⊢
      exact hx w (List.erase_subset _ _ hw)
  | bad =>
      refine ⟨hg, hb.erase v, fun w hw hw2 => ?_⟩
      simp only [TokenData.setCount, TokenData.setVoters, TokenData.voters] at hw hw2
      exact hx w hw (List.erase_subset _ _ hw2)

/-- The step `stanceRemove` preserves the invariant. -/
theorem stanceRemove_inv (voter : Nat) (vt : VoteType) (td : TokenData) (u : UserData)
    (ex : Bool) (h : TokenInv td) :
    TokenInv (stanceRemove voter vt (td, u, ex)).1 := by
  unfold stanceRemove
  by_cases hm : voter ∈ td.voters vt
  · simp only [if_pos hm]
    exact tokenInv_erase td h vt voter _
  · simp only [if_neg hm]
    exact h

/-- The step `stanceRemove` on stance `vt` leaves the other stance's list unchanged. -/
theorem stanceRemove_voters_other (voter : Nat) (vt vt1 : VoteType)
    (td : TokenData) (u : UserData) (ex : Bool) (hne : vt1 ≠ vt) :
    (stanceRemove voter vt (td, u, ex)).1.voters vt1 = td.voters vt1 := by
  unfold stanceRemove
  by_cases hm : voter ∈ td.voters vt
  · simp [if_pos hm, TokenData.voters_setCount, TokenData.voters_setVoters, hne]
  · simp [if_neg hm]

/-- After `stanceRemove` on stance `vt`, the voter is not in that stance's
list (given duplicate-freedom). -/
theorem stanceRemove_not_mem (voter : Nat) (vt : VoteType) (td : TokenData)
    (u : UserData) (ex : Bool) (hnd : (td.voters vt).Nodup) :
    voter ∉ (stanceRemove voter vt (td, u, ex)).1.voters vt := by
  unfold stanceRemove
  by_cases hm : voter ∈ td.voters vt
  · simp only [if_pos hm, TokenData.voters_setCount, TokenData.voters_setVoters,
      if_pos rfl]
    intro hmem
    exact (hnd.mem_erase_iff.mp hmem).1 rfl
  · simp only [if_neg hm]
    exact hm

/-- The step `stanceRemove` never touches the user aggregate's token map. -/
theorem stanceRemove_tokens (voter : Nat) (vt : VoteType)
    (acc : TokenData × UserData × Bool) :
    (stanceRemove voter vt acc).2.1.tokens = acc.2.1.tokens := by
  unfold stanceRemove
  by_cases hm : voter ∈ acc.1.voters vt
  · simp [if_pos hm, UserData.tokens_setCount]
  · simp [if_neg hm]

/-- After the switch-removal loop, the voter holds neither stance and the
invariant still holds. -/
theorem removeExistingVotes_spec (td : TokenData) (u : UserData) (voter : Nat)
    (h : TokenInv td) :
    TokenInv (removeExistingVotes td u voter).1 ∧
      voter ∉ (removeExistingVotes td u voter).1.goodvoters ∧
      voter ∉ (removeExistingVotes td u voter).1.badvoters := by
  unfold removeExistingVotes
  have h1 : TokenInv (stanceRemove voter .good (td, u, false)).1 :=
    stanceRemove_inv voter .good td u false h
  have hng : voter ∉ (stanceRemove voter .good (td, u, false)).1.voters .good :=
    stanceRemove_not_mem voter .good td u false (tokenInv_nodup_voters td h .good)
  set acc1 := stanceRemove voter .good (td, u, false) with hacc1
  have h2 : TokenInv (stanceRemove voter .bad acc1).1 := by
    have := stanceRemove_inv voter .bad acc1.1 acc1.2.1 acc1.2.2 h1
    simpa using this
  have hnb : voter ∉ (stanceRemove voter .bad acc1).1.voters .bad := by
    have := stanceRemove_not_mem voter .bad acc1.1 acc1.2.1 acc1.2.2
      (tokenInv_nodup_voters acc1.1 h1 .bad)
    simpa using this
  have hgood : (stanceRemove voter .bad acc1).1.voters .good = acc1.1.voters .good := by
    have := stanceRemove_voters_other voter .bad .good acc1.1 acc1.2.1 acc1.2.2
      (by simp)
    simpa using this
  refine ⟨h2, ?_, hnb⟩
  show voter ∉ (stanceRemove voter .bad acc1).1.voters .good
  rw [hgood]
  exact hng

/-- Appending a fresh voter to one stance preserves the invariant, provided
the voter currently holds neither stance. -/
theorem tokenInv_append (td : TokenData) (vt : VoteType) (voter : Nat) (n : Int)
    (h : TokenInv td) (hgo : voter ∉ td.goodvoters) (hba : voter ∉ td.badvoters) :
    TokenInv ((td.setVoters vt (td.voters vt ++ [voter])).setCount vt n) := by
  obtain ⟨hg, hb, hx⟩ := h
  cases vt with
  | good =>
      refine ⟨?_, hb, ?_⟩
      · simp only [TokenData.setCount, TokenData.setVoters, TokenData.voters]
        simp [List.nodup_append, hg, hgo]
      · intro w hw hw2
        simp only [TokenData.setCount, TokenData.setVoters, TokenData.voters,
          List.mem_append, List.mem_singleton] at hw hw2
        rcases hw with hw | hw
        · exact hx w hw hw2
        · subst hw
          exact hba hw2
  | bad =>
      refine ⟨hg, ?_, ?_⟩
      · simp only [TokenData.setCount, TokenData.setVoters, TokenData.voters]
        simp [List.nodup_append, hb, hba]
      · intro w hw hw2
        simp only [TokenData.setCount, TokenData.setVoters, TokenData.voters,
          List.mem_append, List.mem_singleton] at hw hw2
        rcases hw2 with hw2 | hw2
        · exact hx w hw hw2
        · subst hw2
          exact hgo hw

/-- The token symbol does not participate in the invariant. -/
theorem tokenInv_symbol (td : TokenData) (sym : String) (h : TokenInv td) :
    TokenInv { td with symbol := sym } := h

theorem tokenInv_fresh (sym : String) : TokenInv ⟨0, 0, [], [], sym⟩ := by
  refine ⟨List.nodup_nil, List.nodup_nil, ?_⟩
  intro v hv
  simp at hv

/-- Vote application preserves the state invariant. -/
theorem applyVoteCore_inv (s : BotState) (author : Nat) (tokenAddr tokenSym : String)
    (voter : Nat) (newVote : VoteType) (msgId : Nat) (voteId ts : String)
    (h : StateInv s) :
    StateInv (applyVoteCore s author tokenAddr tokenSym voter newVote msgId voteId ts).1 := by
  intro a u hau addr td htd
  unfold applyVoteCore at hau
  simp only at hau
  set u0 := (dget s.reputation author).getD ⟨0, 0, []⟩ with hu0
  set td0 : TokenData :=
    (match dget u0.tokens tokenAddr with
     | none => ⟨0, 0, [], [], tokenSym⟩
     | some td => { td with symbol := tokenSym }) with htd0
  have htd0inv : TokenInv td0 := by
    rw [htd0]
    cases hget : dget u0.tokens tokenAddr with
    | none => exact tokenInv_fresh tokenSym
    | some tdx =>
        have : TokenInv tdx := by
          rw [hu0] at hget
          cases hrep : dget s.reputation author with
          | none =>
              rw [hrep] at hget
              simp [dget] at hget
          | some ux =>
              rw [hrep] at hget
              simp only [Option.getD_some] at hget
              exact h author ux hrep tokenAddr tdx hget
        exact tokenInv_symbol tdx tokenSym this
  rcases dget_dset_cases s.reputation author _ a u hau with hu3 | hold
  · subst hu3
    have hrsp := removeExistingVotes_spec td0 u0 voter htd0inv
    obtain ⟨hinv1, hng1, hnb1⟩ := hrsp
    simp only [stanceRemove_tokens] at htd
    rcases dget_dset_cases _ tokenAddr _ addr td htd with htd2 | holdtok
    · subst htd2
      exact tokenInv_append _ newVote voter _ hinv1 hng1 hnb1
    · have htok0 : dget u0.tokens addr = some td := by
        have hh : ((removeExistingVotes td0 u0 voter).2.1).tokens = u0.tokens := by
          unfold removeExistingVotes
          rw [stanceRemove_tokens, stanceRemove_tokens]
        rw [UserData.tokens_setCount, hh] at holdtok
        exact holdtok
      rw [hu0] at htok0
      cases hrep : dget s.reputation author with
      | none =>
          rw [hrep] at htok0
          simp [dget] at htok0
      | some ux =>
          rw [hrep] at htok0
          simp only [Option.getD_some] at htok0
          exact h author ux hrep addr td htok0
  · exact h a u hold addr td htd


/-- The invariant only looks at the `reputation` store. -/
theorem stateInv_of_reputation (s1 s2 : BotState) (heq : s2.reputation = s1.reputation)
    (h : StateInv s1) : StateInv s2 := by
  intro a u hau
  rw [heq] at hau
  exact h a u hau

/-- Removal reconciliation preserves the state invariant. -/
theorem removeVoteCore_inv (s : BotState) (author : Nat) (tokenAddr : String)
    (voter : Nat) (vt : VoteType) (msgId : Nat) (h : StateInv s) :
    StateInv (removeVoteCore s author tokenAddr voter vt msgId) := by
  unfold removeVoteCore
  split
  · exact h
  · rename_i u hrep
    split
    · exact h
    · rename_i td htok
      split
      · rename_i hm
        intro a u1 hau addr td1 htd1
        dsimp only at hau
        rcases dget_dset_cases s.reputation author _ a u1 hau with hu2 | hold
        · subst hu2
          dsimp only at htd1
          rw [UserData.tokens_setCount] at htd1
          rcases dget_dset_cases u.tokens tokenAddr _ addr td1 htd1 with htd2 | holdtok
          · subst htd2
            exact tokenInv_erase td (h author u hrep tokenAddr td htok) vt voter _
          · exact h author u hrep addr td1 holdtok
        · exact h a u1 hold addr td1 htd1
      · exact h

/-- One admin-removal iteration preserves the state invariant. -/
theorem repremoveOne_inv (acc : BotState × RemoveResults) (vid : String)
    (h : StateInv acc.1) : StateInv (repremoveOne acc vid).1 := by
  unfold repremoveOne
  dsimp only
  split
  · exact h
  · rename_i vote hlog
    split
    · exact h
    · intro a u1 hau addr td1 htd1
      dsimp only at hau
      split at hau
      · exact h a u1 hau addr td1 htd1
      · rename_i u hrep
        rcases dget_dset_cases acc.1.reputation vote.author_id _ a u1 hau with hu2 | hold
        · subst hu2
          split at htd1
          · rename_i haddr
            split at htd1
            · rename_i htokn
              rw [UserData.tokens_setCount] at htd1
              exact h vote.author_id u hrep addr td1 htd1
            · rename_i td htok
              dsimp only at htd1
              rw [UserData.tokens_setCount] at htd1
              rw [UserData.tokens_setCount] at htok
              rcases dget_dset_cases u.tokens vote.token_address _ addr td1 htd1
                with htd2 | holdtok
              · subst htd2
                have htdinv : TokenInv td := h vote.author_id u hrep _ td htok
                have hinv2 : TokenInv (td.setCount vote.vote_type
                    (max 0 (td.count vote.vote_type - 1))) := by
                  obtain ⟨hg, hb, hx⟩ := htdinv
                  cases vote.vote_type <;> exact ⟨hg, hb, hx⟩
                split
                · rename_i hv
                  set tdc := td.setCount vote.vote_type (max 0 (td.count vote.vote_type - 1))
                  obtain ⟨hg, hb, hx⟩ := hinv2
                  cases hvt : vote.vote_type with
                  | good =>
                      refine ⟨?_, ?_, ?_⟩
                      · simp only [TokenData.setVoters, TokenData.voters]
                        exact hg.erase _
                      · simp only [TokenData.setVoters]
                        exact hb
                      · intro w hw hw2
                        simp only [TokenData.setVoters, TokenData.voters] at hw hw2
                        exact hx w (List.erase_subset _ _ hw) hw2
                  | bad =>
                      refine ⟨?_, ?_, ?_⟩
                      · simp only [TokenData.setVoters]
                        exact hg
                      · simp only [TokenData.setVoters, TokenData.voters]
                        exact hb.erase _
                      · intro w hw hw2
                        simp only [TokenData.setVoters, TokenData.voters] at hw hw2
                        exact hx w hw (List.erase_subset _ _ hw2)
                · exact hinv2
              · exact h vote.author_id u hrep addr td1 holdtok
          · rename_i haddr
            rw [UserData.tokens_setCount] at htd1
            exact h vote.author_id u hrep addr td1 htd1
        · exact h a u1 hold addr td1 htd1

/-- Admin removal preserves the state invariant. -/
theorem repremove_inv (s : BotState) (vids : List String) (h : StateInv s) :
    StateInv (repremove s vids).1 := by
  unfold repremove
  suffices hgen : ∀ (l : List String) (acc : BotState × RemoveResults),
      StateInv acc.1 → StateInv (l.foldl repremoveOne acc).1 by
    exact hgen vids (s, ⟨[], [], []⟩) h
  intro l
  induction l with
  | nil => intro acc hacc; exact hacc
  | cons vid rest ih =>
      intro acc hacc
      exact ih (repremoveOne acc vid) (repremoveOne_inv acc vid hacc)

/-- Every reachable state satisfies the invariant. -/
theorem reachable_inv (s : BotState) (h : Reachable s) : StateInv s := by
  induction h with
  | init =>
      intro a u hau
      simp [emptyState, dget] at hau
  | add s author tokenAddr tokenSym voter newVote msgId voteId ts hr ih =>
      exact applyVoteCore_inv s author tokenAddr tokenSym voter newVote msgId voteId ts ih
  | remove s author tokenAddr voter vt msgId hr ih =>
      exact removeVoteCore_inv s author tokenAddr voter vt msgId ih
  | adminRemove s vids hr ih =>
      exact repremove_inv s vids ih

/-! ## Claims -/

/-- Claim C4: in every reachable state (under vote applications, reaction
removals, and admin removals), every voter appears in at most one of a token
aggregate's `goodvoters` / `badvoters` lists — never in both. -/
theorem C4_mutual_exclusion (s : BotState) (h : Reachable s) :
    ∀ (a : Nat) (u : UserData), dget s.reputation a = some u →
      ∀ (addr : String) (td : TokenData), dget u.tokens addr = some td →
        ∀ v : Nat, ¬(v ∈ td.goodvoters ∧ v ∈ td.badvoters) := by
  intro a u hau addr td htd v hv
  exact (reachable_inv s h a u hau addr td htd).2.2 v hv.1 hv.2

/-- Witness for C4 at the concrete reachable state obtained by one vote of
voter 2 on author 1's token: voter 2 is in that token's `goodvoters` and not
also in its `badvoters`. -/
theorem C4_mutual_exclusion_witness :
    ¬(2 ∈ (⟨1, 0, [2], [], "TOK"⟩ : TokenData).goodvoters ∧
      2 ∈ (⟨1, 0, [2], [], "TOK"⟩ : TokenData).badvoters) :=
  C4_mutual_exclusion
    (applyVoteCore emptyState 1 "tok" "TOK" 2 VoteType.good 10 "v1" "t1").1
    (Reachable.add emptyState 1 "tok" "TOK" 2 VoteType.good 10 "v1" "t1" Reachable.init)
    1 ⟨1, 0, [("tok", ⟨1, 0, [2], [], "TOK"⟩)]⟩ (by decide)
    "tok" ⟨1, 0, [2], [], "TOK"⟩ (by decide) 2

/-- The five-event sequence that drives a counter negative: voter 2 votes
good, voter 3 votes good, voter 3 switches to bad (which, per the source,
does NOT reverse voter 3's good record "r2"), an admin removes "r2" by id
(decrementing the good counters although voter 3 is no longer in
`goodvoters`), and finally voter 2 switches to bad (the unclamped decrement
at lines 576-577 now runs with the good counters at 0). -/
def c3FailingState : BotState :=
  let t1 := (applyVoteCore emptyState 1 "tok" "TOK" 2 .good 10 "r1" "a").1
  let t2 := (applyVoteCore t1 1 "tok" "TOK" 3 .good 10 "r2" "b").1
  let t3 := (applyVoteCore t2 1 "tok" "TOK" 3 .bad 10 "r3" "c").1
  let t4 := (repremove t3 ["r2"]).1
  (applyVoteCore t4 1 "tok" "TOK" 2 .bad 10 "r5" "d").1

/-- Claim C3 is violated by the code: after the five events of
`c3FailingState`, author 1's user aggregate and token aggregate both carry a
`good` counter of -1. -/
theorem C3_negative_counter :
    dget c3FailingState.reputation 1 =
      some ⟨-1, 2, [("tok", ⟨-1, 2, [], [3, 2], "TOK"⟩)]⟩ := by
  decide

/-- The state after voter 2 votes good (record "g1") and then switches to bad
(record "b1") on author 1's token. -/
def c1SwitchState : BotState :=
  let t1 := (applyVoteCore emptyState 1 "tok" "TOK" 2 .good 10 "g1" "t1").1
  (applyVoteCore t1 1 "tok" "TOK" 2 .bad 10 "b1" "t2").1

/-- Counterexample to claim C1: after the vote-switch, the old-stance record
"g1" is NOT marked reversed and is still in the active-vote index
(`current_votes`) — an active VoteRecord for the old stance remains. -/
theorem C1_counterexample :
    dget c1SwitchState.reputation_log "g1" =
      some ⟨"g1", 2, 1, "tok", VoteType.good, 10, "t1", false⟩ ∧
    dget c1SwitchState.current_votes "g1" =
      some ⟨"g1", 2, 1, "tok", VoteType.good, 10, "t1", false⟩ := by
  constructor <;> decide

theorem applyVoteCore_log (s : BotState) (author : Nat) (tokenAddr tokenSym : String)
    (voter : Nat) (newVote : VoteType) (msgId : Nat) (voteId ts : String) :
    (applyVoteCore s author tokenAddr tokenSym voter newVote msgId voteId ts).1.reputation_log =
      dset s.reputation_log voteId ⟨voteId, voter, author, tokenAddr, newVote, msgId, ts, false⟩ :=
  rfl

theorem applyVoteCore_current (s : BotState) (author : Nat) (tokenAddr tokenSym : String)
    (voter : Nat) (newVote : VoteType) (msgId : Nat) (voteId ts : String) :
    (applyVoteCore s author tokenAddr tokenSym voter newVote msgId voteId ts).1.current_votes =
      dset s.current_votes voteId ⟨voteId, voter, author, tokenAddr, newVote, msgId, ts, false⟩ :=
  rfl

/-- Claim C1 (amended): a vote application creates a new active VoteRecord
for the new stance, but never reverses any pre-existing record: every other
log entry — in particular the previously active record of the old stance —
is unchanged and stays in the active-vote index. -/
theorem C1_switch_keeps_old_record_active (s : BotState) (author : Nat)
    (tokenAddr tokenSym : String) (voter : Nat) (newVote : VoteType) (msgId : Nat)
    (voteId ts : String) (k : String) (r : VoteData) (hk : k ≠ voteId)
    (hr : dget s.reputation_log k = some r) (hrev : r.reversed = false)
    (hcv : dget s.current_votes k = some r) :
    dget (applyVoteCore s author tokenAddr tokenSym voter newVote msgId voteId ts).1.reputation_log
        voteId = some ⟨voteId, voter, author, tokenAddr, newVote, msgId, ts, false⟩ ∧
    dget (applyVoteCore s author tokenAddr tokenSym voter newVote msgId voteId ts).1.reputation_log
        k = some r ∧
    dget (applyVoteCore s author tokenAddr tokenSym voter newVote msgId voteId ts).1.current_votes
        k = some r := by
  rw [applyVoteCore_log, applyVoteCore_current]
  refine ⟨dget_dset_self _ _ _, ?_, ?_⟩
  · rw [dget_dset_ne _ _ _ _ hk]
    exact hr
  · rw [dget_dset_ne _ _ _ _ hk]
    exact hcv

/-- Witness for the amended C1, instantiated at the concrete switch of
`c1SwitchState`: voter 2's good record "g1" is active before the bad vote
"b1" and still active (unreversed, in the index) afterwards. -/
theorem C1_switch_witness :
    (("g1" : String) ≠ "b1") ∧
    (dget ((applyVoteCore emptyState 1 "tok" "TOK" 2 .good 10 "g1" "t1").1).reputation_log "g1" =
      some ⟨"g1", 2, 1, "tok", VoteType.good, 10, "t1", false⟩) ∧
    (dget (applyVoteCore (applyVoteCore emptyState 1 "tok" "TOK" 2 .good 10 "g1" "t1").1
        1 "tok" "TOK" 2 .bad 10 "b1" "t2").1.reputation_log "g1" =
      some ⟨"g1", 2, 1, "tok", VoteType.good, 10, "t1", false⟩) := by
  refine ⟨by decide, by decide, ?_⟩
  exact (C1_switch_keeps_old_record_active
    (applyVoteCore emptyState 1 "tok" "TOK" 2 .good 10 "g1" "t1").1
    1 "tok" "TOK" 2 .bad 10 "b1" "t2" "g1"
    ⟨"g1", 2, 1, "tok", VoteType.good, 10, "t1", false⟩
    (by decide) (by decide) (by decide) (by decide)).2.1

/-- The state after voter 2 casts good twice on author 1's token (a duplicate
delivery): records "g1" and "g2" are BOTH active and both match
(voter 2, author 1, "tok", good, message 10). -/
def c2DupState : BotState :=
  let t1 := (applyVoteCore emptyState 1 "tok" "TOK" 2 .good 10 "g1" "t1").1
  (applyVoteCore t1 1 "tok" "TOK" 2 .good 10 "g2" "t2").1

/-- Counterexample to claim C2: with two active matches "g1" and "g2" in the
log, removal reconciliation reverses BOTH of them (and deletes both from the
active index) — not just the most recent one, and no record stays active. -/
theorem C2_counterexample :
    ((dget c2DupState.reputation_log "g1").map
        (fun r => voteMatches r 2 1 "tok" VoteType.good 10) = some true) ∧
    ((dget c2DupState.reputation_log "g2").map
        (fun r => voteMatches r 2 1 "tok" VoteType.good 10) = some true) ∧
    ((dget (removeVoteCore c2DupState 1 "tok" 2 VoteType.good 10).reputation_log "g1").map
        VoteData.reversed = some true) ∧
    ((dget (removeVoteCore c2DupState 1 "tok" 2 VoteType.good 10).reputation_log "g2").map
        VoteData.reversed = some true) ∧
    dget (removeVoteCore c2DupState 1 "tok" 2 VoteType.good 10).current_votes "g1" = none ∧
    dget (removeVoteCore c2DupState 1 "tok" 2 VoteType.good 10).current_votes "g2" = none := by
  refine ⟨by decide, by decide, by decide, by decide, by decide, by decide⟩

theorem UserData.count_tokens_update (u : UserData) (l : List (String × TokenData))
    (vt : VoteType) : ({ u with tokens := l } : UserData).count vt = u.count vt := by
  cases vt <;> rfl

/-- The effect of the log-reconciliation loop on a single record. -/
def markReversed (voter author : Nat) (addr : String) (vt : VoteType) (msgId : Nat)
    (v : VoteData) : VoteData :=
  if voteMatches v voter author addr vt msgId then { v with reversed := true } else v

/-- Claim C2 (amended): when removal reconciliation fires (the voter holds
the removed stance), EVERY active log entry matching (voter, author, token,
type, source message) is marked reversed — not only the most recent one —
and no `AmbiguousVoteState` warning exists in the code; the token and user
counters are still decremented only once (clamped at zero). -/
theorem C2_removal_reverses_all_matches (s : BotState) (author : Nat)
    (tokenAddr : String) (voter : Nat) (vt : VoteType) (msgId : Nat)
    (u : UserData) (td : TokenData)
    (hu : dget s.reputation author = some u) (ht : dget u.tokens tokenAddr = some td)
    (hv : voter ∈ td.voters vt) :
    (∀ (k : String) (r : VoteData), dget s.reputation_log k = some r →
      voteMatches r voter author tokenAddr vt msgId = true →
      dget (removeVoteCore s author tokenAddr voter vt msgId).reputation_log k =
        some { r with reversed := true }) ∧
    (∃ (u1 : UserData) (td1 : TokenData),
      dget (removeVoteCore s author tokenAddr voter vt msgId).reputation author = some u1 ∧
      dget u1.tokens tokenAddr = some td1 ∧
      td1.count vt = max 0 (td.count vt - 1) ∧
      u1.count vt = max 0 (u.count vt - 1)) := by
  unfold removeVoteCore
  rw [hu]
  simp only [ht, if_pos hv]
  constructor
  · intro k r hr hm
    have hmapeq : s.reputation_log.map
        (fun p => if voteMatches p.2 voter author tokenAddr vt msgId
          then (p.1, { p.2 with reversed := true }) else p) =
        s.reputation_log.map
          (fun p => (p.1, markReversed voter author tokenAddr vt msgId p.2)) := by
      congr 1
      funext p
      unfold markReversed
      by_cases hc : voteMatches p.2 voter author tokenAddr vt msgId <;> simp [hc]
    rw [hmapeq, dget_map_value, hr]
    simp [markReversed, hm]
  · refine ⟨_, _, dget_dset_self _ _ _, dget_dset_self _ _ _, ?_, ?_⟩
    · rw [TokenData.count_setCount]
      simp
    · rw [UserData.count_tokens_update, UserData.count_of_setCount]
      simp

/-- Witness for the amended C2 at the duplicate-add state: both matching
records get reversed and the counters drop from 2 to 1. -/
theorem C2_removal_witness :
    (dget c2DupState.reputation 1 =
      some ⟨1, 0, [("tok", ⟨1, 0, [2], [], "TOK"⟩)]⟩) ∧
    (dget (removeVoteCore c2DupState 1 "tok" 2 VoteType.good 10).reputation_log "g1" =
      some ⟨"g1", 2, 1, "tok", VoteType.good, 10, "t1", true⟩) ∧
    (∃ (u1 : UserData) (td1 : TokenData),
      dget (removeVoteCore c2DupState 1 "tok" 2 VoteType.good 10).reputation 1 = some u1 ∧
      dget u1.tokens "tok" = some td1 ∧
      td1.count VoteType.good = max 0 ((⟨1, 0, [2], [], "TOK"⟩ : TokenData).count VoteType.good - 1) ∧
      u1.count VoteType.good = max 0 ((⟨1, 0, [("tok", ⟨1, 0, [2], [], "TOK"⟩)]⟩ : UserData).count VoteType.good - 1)) := by
  have happ := C2_removal_reverses_all_matches c2DupState 1 "tok" 2 VoteType.good 10
    ⟨1, 0, [("tok", ⟨1, 0, [2], [], "TOK"⟩)]⟩ ⟨1, 0, [2], [], "TOK"⟩
    (by decide) (by decide) (by decide)
  refine ⟨by decide, ?_, happ.2⟩
  exact happ.1 "g1" ⟨"g1", 2, 1, "tok", VoteType.good, 10, "t1", false⟩ (by decide) (by decide)

/-- On an active vote id, `repremoveOne` reverses the log entry, deletes it
from the active index, and reports success — whatever the aggregates hold. -/
theorem repremoveOne_active_log (s : BotState) (res : RemoveResults) (vid : String)
    (v : VoteData) (hlog : dget s.reputation_log vid = some v)
    (hrev : v.reversed = false) :
    (repremoveOne (s, res) vid).1.reputation_log =
      dset s.reputation_log vid { v with reversed := true } ∧
    (repremoveOne (s, res) vid).1.current_votes = ddel s.current_votes vid ∧
    (repremoveOne (s, res) vid).2 = { res with success := res.success ++ [vid] } := by
  refine ⟨?_, ?_, ?_⟩ <;>
    · unfold repremoveOne
      dsimp only
      rw [hlog]
      dsimp only
      simp only [hrev, Bool.false_eq_true, if_false]
      try split
      all_goals rfl

/-- On an already-reversed vote id, `repremoveOne` only reports it. -/
theorem repremoveOne_already_reversed (s : BotState) (res : RemoveResults)
    (vid : String) (v : VoteData) (hlog : dget s.reputation_log vid = some v)
    (hrev : v.reversed = true) :
    repremoveOne (s, res) vid = (s, { res with reversed := res.reversed ++ [vid] }) := by
  unfold repremoveOne
  dsimp only
  rw [hlog]
  dsimp only
  simp only [hrev, if_true]

/-- On an active token-bound vote whose author and token aggregates exist,
`repremoveOne` decrements both counters, clamped at zero. -/
theorem repremoveOne_active_counts (s : BotState) (res : RemoveResults) (vid : String)
    (v : VoteData) (u : UserData) (td : TokenData)
    (hlog : dget s.reputation_log vid = some v) (hrev : v.reversed = false)
    (hu : dget s.reputation v.author_id = some u)
    (haddr : v.token_address ≠ "admin_added")
    (htd : dget u.tokens v.token_address = some td) :
    ∃ (u1 : UserData) (td1 : TokenData),
      dget (repremoveOne (s, res) vid).1.reputation v.author_id = some u1 ∧
      dget u1.tokens v.token_address = some td1 ∧
      u1.count v.vote_type = max 0 (u.count v.vote_type - 1) ∧
      td1.count v.vote_type = max 0 (td.count v.vote_type - 1) := by
  unfold repremoveOne
  dsimp only
  rw [hlog]
  dsimp only
  simp only [hrev, Bool.false_eq_true, if_false]
  rw [hu]
  dsimp only
  simp only [if_pos haddr, UserData.tokens_setCount]
  rw [htd]
  dsimp only
  refine ⟨_, _, dget_dset_self _ _ _, dget_dset_self _ _ _, ?_, ?_⟩
  · rw [UserData.count_tokens_update, UserData.count_of_setCount]
    simp
  · split
    · rw [TokenData.count_setVoters, TokenData.count_setCount]
      simp
    · rw [TokenData.count_setCount]
      simp

/-- Claim C5: submitting the same vote id to `repremove` twice reports it as
removed the first time and as already reversed the second time; the
aggregates are decremented exactly once (the second call leaves the whole
state unchanged). -/
theorem C5_repremove_idempotent (s : BotState) (vid : String) (v : VoteData)
    (u : UserData) (td : TokenData)
    (hlog : dget s.reputation_log vid = some v) (hrev : v.reversed = false)
    (hu : dget s.reputation v.author_id = some u)
    (haddr : v.token_address ≠ "admin_added")
    (htd : dget u.tokens v.token_address = some td) :
    (repremove s [vid]).2.success = [vid] ∧
    (repremove s [vid]).2.reversed = [] ∧
    (repremove s [vid]).2.invalid = [] ∧
    (repremove (repremove s [vid]).1 [vid]).2.success = [] ∧
    (repremove (repremove s [vid]).1 [vid]).2.reversed = [vid] ∧
    (repremove (repremove s [vid]).1 [vid]).2.invalid = [] ∧
    (repremove (repremove s [vid]).1 [vid]).1 = (repremove s [vid]).1 ∧
    (∃ (u1 : UserData) (td1 : TokenData),
      dget (repremove s [vid]).1.reputation v.author_id = some u1 ∧
      dget u1.tokens v.token_address = some td1 ∧
      u1.count v.vote_type = max 0 (u.count v.vote_type - 1) ∧
      td1.count v.vote_type = max 0 (td.count v.vote_type - 1)) := by
  have h1 : repremove s [vid] = repremoveOne (s, ⟨[], [], []⟩) vid := rfl
  obtain ⟨hl1, hc1, hr1⟩ := repremoveOne_active_log s ⟨[], [], []⟩ vid v hlog hrev
  have hlog2 : dget (repremove s [vid]).1.reputation_log vid =
      some { v with reversed := true } := by
    rw [h1, hl1]
    exact dget_dset_self _ _ _
  have h2 : repremove (repremove s [vid]).1 [vid] =
      repremoveOne ((repremove s [vid]).1, ⟨[], [], []⟩) vid := rfl
  have hsecond := repremoveOne_already_reversed (repremove s [vid]).1 ⟨[], [], []⟩ vid
    { v with reversed := true } hlog2 rfl
  refine ⟨?_, ?_, ?_, ?_, ?_, ?_, ?_, ?_⟩
  · rw [h1, hr1]
    rfl
  · rw [h1, hr1]
  · rw [h1, hr1]
  · rw [h2, hsecond]
  · rw [h2, hsecond]
    rfl
  · rw [h2, hsecond]
  · rw [h2, hsecond]
  · rw [h1]
    exact repremoveOne_active_counts s ⟨[], [], []⟩ vid v u td hlog hrev hu haddr htd


/-- A one-vote state for exercising C5: voter 2's good vote "g1" on author
1's token. -/
def c5Base : BotState :=
  (applyVoteCore emptyState 1 "tok" "TOK" 2 .good 10 "g1" "t1").1

/-- Witness for C5: a one-vote state; the first removal reports success and
drops the counters from 1 to 0, the second reports already-reversed and
changes nothing. -/
theorem C5_repremove_witness :
    (repremove c5Base ["g1"]).2.success = ["g1"] ∧
    (repremove (repremove c5Base ["g1"]).1 ["g1"]).2.reversed = ["g1"] ∧
    (repremove (repremove c5Base ["g1"]).1 ["g1"]).1 = (repremove c5Base ["g1"]).1 ∧
    (∃ (u1 : UserData) (td1 : TokenData),
      dget (repremove c5Base ["g1"]).1.reputation 1 = some u1 ∧
      dget u1.tokens "tok" = some td1 ∧
      u1.count VoteType.good = max 0 ((1 : Int) - 1) ∧
      td1.count VoteType.good = max 0 ((1 : Int) - 1)) := by
  have happ := C5_repremove_idempotent c5Base "g1"
    ⟨"g1", 2, 1, "tok", VoteType.good, 10, "t1", false⟩
    ⟨1, 0, [("tok", ⟨1, 0, [2], [], "TOK"⟩)]⟩ ⟨1, 0, [2], [], "TOK"⟩
    (by decide) (by decide) (by decide) (by decide) (by decide)
  exact ⟨happ.1, happ.2.2.2.2.1, happ.2.2.2.2.2.2.1, happ.2.2.2.2.2.2.2⟩

/-- When the voter already holds stance `vt` (and not the other stance), the
switch-removal loop removes exactly that stance: it erases the voter from the
`vt` list and decrements the `vt` counters once. -/
theorem removeExistingVotes_same (td : TokenData) (u : UserData) (voter : Nat)
    (vt : VoteType) (hin : voter ∈ td.voters vt) (hout : voter ∉ td.voters vt.other) :
    removeExistingVotes td u voter =
      ((td.setVoters vt ((td.voters vt).erase voter)).setCount vt (td.count vt - 1),
       u.setCount vt (u.count vt - 1), true) := by
  cases vt with
  | good =>
      have hout1 : voter ∉ td.voters VoteType.bad := hout
      unfold removeExistingVotes stanceRemove
      dsimp only
      rw [if_pos hin]
      dsimp only
      have hb : ((td.setVoters .good ((td.voters .good).erase voter)).setCount .good
          (td.count .good - 1)).voters .bad = td.voters .bad := by
        rw [TokenData.voters_setCount, TokenData.voters_setVoters]
        simp
      rw [hb, if_neg hout1]
  | bad =>
      have hout1 : voter ∉ td.voters VoteType.good := hout
      unfold removeExistingVotes stanceRemove
      dsimp only
      rw [if_neg hout1]
      dsimp only
      rw [if_pos hin]

/-- Claim C6: re-applying an identical stance is a no-op at the aggregate
level: the user counters, the token counters, and the voter sets (as sets)
are unchanged, and no other user or token entry is touched. -/
theorem C6_same_stance_noop (s : BotState) (author : Nat) (tokenAddr tokenSym : String)
    (voter : Nat) (vt : VoteType) (msgId : Nat) (voteId ts : String)
    (u : UserData) (td : TokenData)
    (hu : dget s.reputation author = some u) (htd : dget u.tokens tokenAddr = some td)
    (hin : voter ∈ td.voters vt) (hout : voter ∉ td.voters vt.other) :
    ∃ (u1 : UserData) (td1 : TokenData),
      dget (applyVoteCore s author tokenAddr tokenSym voter vt msgId voteId ts).1.reputation
        author = some u1 ∧
      dget u1.tokens tokenAddr = some td1 ∧
      u1.good = u.good ∧ u1.bad = u.bad ∧
      td1.good = td.good ∧ td1.bad = td.bad ∧
      (∀ x : Nat, x ∈ td1.voters vt ↔ x ∈ td.voters vt) ∧
      td1.voters vt.other = td.voters vt.other ∧
      (∀ a1 : Nat, a1 ≠ author →
        dget (applyVoteCore s author tokenAddr tokenSym voter vt msgId voteId ts).1.reputation
          a1 = dget s.reputation a1) ∧
      (∀ addr1 : String, addr1 ≠ tokenAddr → dget u1.tokens addr1 = dget u.tokens addr1) := by
  have hmem : ∀ x : Nat, x ∈ ((td.voters vt).erase voter ++ [voter]) ↔ x ∈ td.voters vt := by
    intro x
    constructor
    · intro hx
      rcases List.mem_append.mp hx with hx | hx
      · exact List.erase_subset _ _ hx
      · rw [List.mem_singleton.mp hx]
        exact hin
    · intro hx
      by_cases hxe : x = voter
      · subst hxe
        exact List.mem_append.mpr (Or.inr (List.mem_singleton.mpr rfl))
      · exact List.mem_append.mpr (Or.inl ((List.mem_erase_of_ne hxe).mpr hx))
  cases vt with
  | good =>
      have hrm := removeExistingVotes_same ⟨td.good, td.bad, td.goodvoters, td.badvoters,
        tokenSym⟩ u voter .good hin hout
      unfold applyVoteCore
      rw [hu]
      dsimp only [Option.getD_some]
      rw [htd]
      dsimp only
      rw [hrm]
      dsimp only
      refine ⟨_, _, dget_dset_self _ _ _, dget_dset_self _ _ _, ?_, ?_, ?_, ?_, ?_, ?_, ?_, ?_⟩
      · dsimp only [UserData.setCount, UserData.count]
        omega
      · dsimp only [UserData.setCount, UserData.count]
      · dsimp only [TokenData.setCount, TokenData.setVoters, TokenData.count]
        omega
      · dsimp only [TokenData.setCount, TokenData.setVoters, TokenData.count]
      · intro x
        dsimp only [TokenData.setCount, TokenData.setVoters, TokenData.voters]
        exact hmem x
      · dsimp only [VoteType.other, TokenData.setCount, TokenData.setVoters,
          TokenData.voters]
      · intro a1 ha1
        exact dget_dset_ne _ _ _ _ ha1
      · intro addr1 haddr1
        exact dget_dset_ne _ _ _ _ haddr1
  | bad =>
      have hrm := removeExistingVotes_same ⟨td.good, td.bad, td.goodvoters, td.badvoters,
        tokenSym⟩ u voter .bad hin hout
      unfold applyVoteCore
      rw [hu]
      dsimp only [Option.getD_some]
      rw [htd]
      dsimp only
      rw [hrm]
      dsimp only
      refine ⟨_, _, dget_dset_self _ _ _, dget_dset_self _ _ _, ?_, ?_, ?_, ?_, ?_, ?_, ?_, ?_⟩
      · dsimp only [UserData.setCount, UserData.count]
      · dsimp only [UserData.setCount, UserData.count]
        omega
      · dsimp only [TokenData.setCount, TokenData.setVoters, TokenData.count]
      · dsimp only [TokenData.setCount, TokenData.setVoters, TokenData.count]
        omega
      · intro x
        dsimp only [TokenData.setCount, TokenData.setVoters, TokenData.voters]
        exact hmem x
      · dsimp only [VoteType.other, TokenData.setCount, TokenData.setVoters,
          TokenData.voters]
      · intro a1 ha1
        exact dget_dset_ne _ _ _ _ ha1
      · intro addr1 haddr1
        exact dget_dset_ne _ _ _ _ haddr1

/-- A one-vote state for exercising C6: voter 2's good vote on author 1's
token. -/
def c6Base : BotState :=
  (applyVoteCore emptyState 1 "tok" "TOK" 2 .good 10 "g1" "t1").1

/-- Witness for C6: voter 2 re-applies good on the same token; the counters
and the voter sets are unchanged. -/
theorem C6_same_stance_witness :
    (dget c6Base.reputation 1 = some ⟨1, 0, [("tok", ⟨1, 0, [2], [], "TOK"⟩)]⟩) ∧
    (dget (⟨1, 0, [("tok", ⟨1, 0, [2], [], "TOK"⟩)]⟩ : UserData).tokens "tok" =
      some ⟨1, 0, [2], [], "TOK"⟩) ∧
    (2 ∈ (⟨1, 0, [2], [], "TOK"⟩ : TokenData).voters VoteType.good) ∧
    (2 ∉ (⟨1, 0, [2], [], "TOK"⟩ : TokenData).voters VoteType.good.other) ∧
    (∃ (u1 : UserData) (td1 : TokenData),
      dget (applyVoteCore c6Base 1 "tok" "TOK" 2 VoteType.good 10 "g2" "t2").1.reputation
        1 = some u1 ∧
      dget u1.tokens "tok" = some td1 ∧
      u1.good = (1 : Int) ∧ u1.bad = (0 : Int) ∧
      td1.good = (1 : Int) ∧ td1.bad = (0 : Int) ∧
      (∀ x : Nat, x ∈ td1.voters VoteType.good ↔
        x ∈ (⟨1, 0, [2], [], "TOK"⟩ : TokenData).voters VoteType.good) ∧
      td1.voters VoteType.good.other =
        (⟨1, 0, [2], [], "TOK"⟩ : TokenData).voters VoteType.good.other ∧
      (∀ a1 : Nat, a1 ≠ 1 →
        dget (applyVoteCore c6Base 1 "tok" "TOK" 2 VoteType.good 10 "g2" "t2").1.reputation
          a1 = dget c6Base.reputation a1) ∧
      (∀ addr1 : String, addr1 ≠ "tok" →
        dget u1.tokens addr1 =
          dget (⟨1, 0, [("tok", ⟨1, 0, [2], [], "TOK"⟩)]⟩ : UserData).tokens addr1)) :=
  ⟨by decide, by decide, by decide, by decide,
   C6_same_stance_noop c6Base 1 "tok" "TOK" 2 VoteType.good 10 "g2" "t2"
     ⟨1, 0, [("tok", ⟨1, 0, [2], [], "TOK"⟩)]⟩ ⟨1, 0, [2], [], "TOK"⟩
     (by decide) (by decide) (by decide) (by decide)⟩

/-- A state with one tracked message: message 10 votes on author 7. -/
def c7State : BotState :=
  { emptyState with token_messages := [(10, ⟨7, "tok", "TOK"⟩)] }

/-- Counterexample to claim C7: the author reacting with the unrecognized
glyph "😀" on their own tracked message does NOT fall into the ignore path —
the handler takes the self-vote branch (compensating reaction removal and a
notice), because the source checks self-vote before the glyph. -/
theorem C7_counterexample :
    (onReactionAdd c7State 10 "😀" 7 false "v1" "t1").2 = AddOutcome.selfVoteRejected ∧
    AddOutcome.selfVoteRejected ≠ AddOutcome.ignoredGlyph := by
  constructor <;> decide

/-- Claim C7 (amended): in `on_reaction_add` the self-vote check precedes the
glyph check: a non-disabled, non-bot actor equal to the tracked author is sent
down the self-vote-reject path (compensating removal and notice, no ledger
mutation) whatever the glyph; an unrecognized glyph is ignored only for
actors other than the author. -/
theorem C7_self_check_precedes_glyph (s : BotState) (msgId : Nat) (emoji : String)
    (userId : Nat) (voteId ts : String) (info : MessageInfo)
    (hnd : userId ∉ s.disabled_voters)
    (hmsg : dget s.token_messages msgId = some info) :
    (userId = info.author →
      onReactionAdd s msgId emoji userId false voteId ts = (s, .selfVoteRejected)) ∧
    (userId ≠ info.author → emoji ≠ "🟢" → emoji ≠ "🔴" →
      onReactionAdd s msgId emoji userId false voteId ts = (s, .ignoredGlyph)) := by
  constructor
  · intro hself
    subst hself
    unfold onReactionAdd
    simp [hnd, hmsg]
  · intro hne hg1 hg2
    unfold onReactionAdd
    simp [hnd, hmsg, hne, hg1, hg2]

/-- Witness for the amended C7: on the tracked message of `c7State`, author 7
reacting "😀" is self-vote-rejected, while user 8 reacting "😀" is ignored by
the glyph check. -/
theorem C7_self_check_witness :
    (7 ∉ c7State.disabled_voters) ∧
    (dget c7State.token_messages 10 = some ⟨7, "tok", "TOK"⟩) ∧
    (onReactionAdd c7State 10 "😀" 7 false "v1" "t1" = (c7State, .selfVoteRejected)) ∧
    (onReactionAdd c7State 10 "😀" 8 false "v1" "t1" = (c7State, .ignoredGlyph)) :=
  ⟨by decide, by decide,
   (C7_self_check_precedes_glyph c7State 10 "😀" 7 "v1" "t1" ⟨7, "tok", "TOK"⟩
     (by decide) (by decide)).1 rfl,
   (C7_self_check_precedes_glyph c7State 10 "😀" 8 "v1" "t1" ⟨7, "tok", "TOK"⟩
     (by decide) (by decide)).2 (by decide) (by decide) (by decide)⟩

/-- Counterexample to claim C8: on input "$BAR baz" the extractor returns
"BAR BAZ", not "BAR" — the bare-dollar capture class `[A-Za-z0-9 ]{2,20}`
greedily includes the space and the following word, and this branch does not
strip the group. -/
theorem C8_counterexample :
    extract_token_symbol "$BAR baz" = "BAR BAZ" ∧ ("BAR BAZ" : String) ≠ "BAR" := by
  constructor <;> decide

/-- Claim C8 (amended): the extractor's literal cases are
"**$FOO**" → "FOO", "$BAR baz" → "BAR BAZ" (not "BAR"),
"[BAZ](http://x)" → "BAZ", "Hello World - rest" → "HELLO", "" → "". -/
theorem C8_extractor_literal_cases :
    extract_token_symbol "**$FOO**" = "FOO" ∧
    extract_token_symbol "$BAR baz" = "BAR BAZ" ∧
    extract_token_symbol "[BAZ](http://x)" = "BAZ" ∧
    extract_token_symbol "Hello World - rest" = "HELLO" ∧
    extract_token_symbol "" = "" := by
  refine ⟨by decide, by decide, by decide, by decide, by decide⟩

/-- Claim C9: a snapshot followed by a restore reproduces the user and token
aggregates and the full vote log identically, and a token entry persisted
without a symbol is restored with the derived default — the first six
characters of the address plus "...", or "unknown" for the unknown
sentinel. -/
theorem C9_snapshot_restore_roundtrip :
    (∀ s : BotState, load_data (save_data s) s = s) ∧
    (∀ (g b : Int) (gv bv : List Nat) (addr : String),
      loadTokenData addr ⟨g, b, gv, bv, none⟩ =
        ⟨g, b, gv, bv, if addr ≠ "unknown" then addr.take 6 ++ "..." else "unknown"⟩) := by
  constructor
  · intro s
    have htok : ∀ l : List (String × TokenData),
        (l.map (fun p => (p.1, saveTokenData p.2))).map
          (fun q => (q.1, loadTokenData q.1 q.2)) = l := by
      intro l
      induction l with
      | nil => rfl
      | cons p rest ih =>
          obtain ⟨k, td⟩ := p
          simp only [List.map_cons, List.cons.injEq]
          exact ⟨rfl, ih⟩
    have huser : (s.reputation.map (fun p => (p.1, saveUserData p.2))).map
        (fun q => (q.1, loadUserData q.2)) = s.reputation := by
      induction s.reputation with
      | nil => rfl
      | cons p rest ih =>
          obtain ⟨k, u⟩ := p
          simp only [List.map_cons, List.cons.injEq]
          refine ⟨?_, ih⟩
          show (k, loadUserData (saveUserData u)) = (k, u)
          unfold loadUserData saveUserData
          dsimp only
          rw [htok]
    unfold load_data save_data
    dsimp only
    rw [huser]
  · intro g b gv bv addr
    rfl

/-- On a vote id whose author lacks a reputation entry, `repremoveOne` leaves
the aggregates alone entirely. -/
theorem repremoveOne_reputation_none (s : BotState) (res : RemoveResults)
    (vid : String) (v : VoteData) (hlog : dget s.reputation_log vid = some v)
    (hrev : v.reversed = false) (hu : dget s.reputation v.author_id = none) :
    (repremoveOne (s, res) vid).1.reputation = s.reputation := by
  unfold repremoveOne
  dsimp only
  rw [hlog]
  dsimp only
  simp only [hrev, Bool.false_eq_true, if_false]
  rw [hu]

/-- Claim C10: admin removal of an active vote whose author has no entry in
the reputation aggregates still marks the record reversed, deletes it from
the active index and reports it as removed, while every aggregate stays
untouched. -/
theorem C10_orphan_author_removal (s : BotState) (vid : String) (v : VoteData)
    (hlog : dget s.reputation_log vid = some v) (hrev : v.reversed = false)
    (hu : dget s.reputation v.author_id = none) :
    (repremove s [vid]).2.success = [vid] ∧
    (repremove s [vid]).2.invalid = [] ∧
    (repremove s [vid]).2.reversed = [] ∧
    (repremove s [vid]).1.reputation = s.reputation ∧
    dget (repremove s [vid]).1.reputation_log vid = some { v with reversed := true } ∧
    dget (repremove s [vid]).1.current_votes vid = none := by
  have h1 : repremove s [vid] = repremoveOne (s, ⟨[], [], []⟩) vid := rfl
  obtain ⟨hl1, hc1, hr1⟩ := repremoveOne_active_log s ⟨[], [], []⟩ vid v hlog hrev
  refine ⟨?_, ?_, ?_, ?_, ?_, ?_⟩
  · rw [h1, hr1]
    rfl
  · rw [h1, hr1]
  · rw [h1, hr1]
  · rw [h1]
    exact repremoveOne_reputation_none s ⟨[], [], []⟩ vid v hlog hrev hu
  · rw [h1, hl1]
    exact dget_dset_self _ _ _
  · rw [h1, hc1]
    exact dget_ddel_self _ _

/-- A state holding one active vote "x1" on author 1, who has no reputation
entry (e.g. after a partial restore of the persisted stores). -/
def c10State : BotState :=
  { emptyState with
      reputation_log := [("x1", ⟨"x1", 2, 1, "tok", VoteType.good, 10, "t1", false⟩)],
      current_votes := [("x1", ⟨"x1", 2, 1, "tok", VoteType.good, 10, "t1", false⟩)] }

/-- Witness for C10 on `c10State`. -/
theorem C10_orphan_witness :
    (dget c10State.reputation_log "x1" =
      some ⟨"x1", 2, 1, "tok", VoteType.good, 10, "t1", false⟩) ∧
    (dget c10State.reputation 1 = none) ∧
    ((repremove c10State ["x1"]).2.success = ["x1"] ∧
     (repremove c10State ["x1"]).2.invalid = [] ∧
     (repremove c10State ["x1"]).2.reversed = [] ∧
     (repremove c10State ["x1"]).1.reputation = c10State.reputation ∧
     dget (repremove c10State ["x1"]).1.reputation_log "x1" =
       some ⟨"x1", 2, 1, "tok", VoteType.good, 10, "t1", true⟩ ∧
     dget (repremove c10State ["x1"]).1.current_votes "x1" = none) :=
  ⟨by decide, by decide,
   C10_orphan_author_removal c10State "x1"
     ⟨"x1", 2, 1, "tok", VoteType.good, 10, "t1", false⟩
     (by decide) (by decide) (by decide)⟩
